import Mathlib

/-!
Shallow embedding of the AI-powered shopping agent (`src/main.py`).

The script is a linear pipeline: a regex-based query parser, a list filter
over product records, a prompt builder, and an orchestrator that combines a
deterministic text block with a summarizer answer.  All string processing is
modelled over `List Char` with the ASCII fragment of Python's `re` semantics
(the queries and catalogs of the specification are ASCII).  Numbers are exact
rationals: Python's `float(...)` of the decimal numerals extracted by the
parser, and the JSON numbers of the catalog, are modelled as the decimal
values they denote.
-/

namespace ShoppingAgent

/-- Python regex `\w` (ASCII fragment): letters, digits and underscore. -/
def isWordChar (c : Char) : Bool := c.isAlphanum || c = '_'

/-- Python regex `\s` (ASCII fragment): the six ASCII whitespace characters. -/
def isSpaceChar (c : Char) : Bool :=
  c = ' ' || c = '\t' || c = '\n' || c = '\r' || c = '\x0b' || c = '\x0c'

/-- Python `str.lower` on the ASCII fragment. -/
def pyLower (cs : List Char) : List Char := cs.map Char.toLower

/-- Python `str.strip` (no argument): drop whitespace on both ends. -/
def pyStrip (cs : List Char) : List Char :=
  ((cs.dropWhile isSpaceChar).reverse.dropWhile isSpaceChar).reverse

/-- Python `str.lower` packaged on `String`. -/
def pyLowerStr (s : String) : String := String.mk (pyLower s.toList)

/-- Python `str.strip` packaged on `String`. -/
def pyStripStr (s : String) : String := String.mk (pyStrip s.toList)

/-- Greedily split a maximal run of leading ASCII digits from the rest
(the `[0-9]+` pieces of the numeric regexes). -/
def takeDigits : List Char → List Char × List Char
  | [] => ([], [])
  | c :: cs =>
    if c.isDigit then
      let p := takeDigits cs
      (c :: p.1, p.2)
    else ([], c :: cs)

/-- Match the regex `[0-9]+(?:\.[0-9]+)?` at the head of the input: returns
the matched numeral and the remaining characters.  The fractional part is
only part of the match when the dot is followed by at least one digit. -/
def matchNumberAt (cs : List Char) : Option (List Char × List Char) :=
  let p := takeDigits cs
  if p.1.isEmpty then none
  else
    match p.2 with
    | '.' :: r2 =>
      let f := takeDigits r2
      if f.1.isEmpty then some (p.1, p.2)
      else some (p.1 ++ '.' :: f.1, f.2)
    | _ => some (p.1, p.2)

/-- Decimal value of a digit string. -/
def natOfDigits (ds : List Char) : ℕ :=
  ds.foldl (fun n c => 10 * n + (c.toNat - '0'.toNat)) 0

/-- Value denoted by a numeral matched by `matchNumberAt` (Python
`float(...)` of the captured group, modelled exactly). -/
def ratOfNumeral (cs : List Char) : ℚ :=
  let i := cs.takeWhile (fun c => c ≠ '.')
  let f := (cs.dropWhile (fun c => c ≠ '.')).drop 1
  if f.isEmpty then (natOfDigits i : ℚ)
  else (natOfDigits i : ℚ) + (natOfDigits f : ℚ) / ((10 : ℚ) ^ f.length)

/-- The ordered alternatives of the price pattern
`(?:under|below|less than|<|<=)`, in the order the regex tries them. -/
def priceAlts : List (List Char) :=
  [String.toList "under", String.toList "below", String.toList "less than",
   String.toList "<", String.toList "<="]

/-- Match `\s*\$?\s*([0-9]+(?:\.[0-9]+)?)` at the head of the input and
return the captured numeral.  The character classes are disjoint, so the
greedy left-to-right scan needs no backtracking. -/
def matchPriceTail (cs : List Char) : Option (List Char) :=
  let cs1 := cs.dropWhile isSpaceChar
  let cs2 := match cs1 with
    | '$' :: r => r
    | _ => cs1
  let cs3 := cs2.dropWhile isSpaceChar
  (matchNumberAt cs3).map Prod.fst

/-- Try the full price pattern at one position: alternatives in regex order,
falling through to the next alternative when the numeric tail fails (this is
how `<` yields to `<=`). -/
def tryPriceAt (cs : List Char) : Option (List Char) :=
  priceAlts.findSome? fun alt =>
    if alt.isPrefixOf cs then matchPriceTail (cs.drop alt.length) else none

/-- Python `re.search` for the price pattern: leftmost matching position
wins; at a failing position the scan advances one character. -/
def searchPrice : List Char → Option (List Char)
  | [] => none
  | c :: cs =>
    match tryPriceAt (c :: cs) with
    | some n => some n
    | none => searchPrice cs

/-- Python `re.search(r"\$([0-9]+(?:\.[0-9]+)?)", q)`: the fallback pattern
for inputs like `$300`.  A `$` not followed by a digit is skipped over. -/
def searchDollar : List Char → Option (List Char)
  | [] => none
  | '$' :: cs =>
    (match matchNumberAt cs with
     | some p => some p.1
     | none => searchDollar cs)
  | _ :: cs => searchDollar cs

/-- One pass of `re.sub(r"\$[0-9]+(?:\.[0-9]+)?", " ", q)`: every `$numeral`
substring is replaced by a single space, scanning left to right and resuming
after each match.  Every step consumes at least one character, so a fuel
budget equal to the input length makes the recursion structural; the
zero-fuel branch is never reached from `removeDollarNums`. -/
def removeDollarNumsAux : ℕ → List Char → List Char
  | 0, _ => []
  | _ + 1, [] => []
  | n + 1, '$' :: rest =>
    (match matchNumberAt rest with
     | some p => ' ' :: removeDollarNumsAux n p.2
     | none => '$' :: removeDollarNumsAux n rest)
  | n + 1, c :: rest => c :: removeDollarNumsAux n rest

/-- Python `re.sub(r"\$[0-9]+(?:\.[0-9]+)?", " ", q)`. -/
def removeDollarNums (cs : List Char) : List Char :=
  removeDollarNumsAux cs.length cs

/-- The stop-word alternatives of
`\b(under|below|less than|find|show|me|products|product|for|a|an|the|in|with|and|to|i|want)\b`,
in the order the regex tries them (`products` before `product`, `a` before
`an`: the regex backtracks to the later alternative when the trailing word
boundary fails). -/
def stopWords : List (List Char) :=
  [String.toList "under", String.toList "below", String.toList "less than",
   String.toList "find", String.toList "show", String.toList "me",
   String.toList "products", String.toList "product", String.toList "for",
   String.toList "a", String.toList "an", String.toList "the",
   String.toList "in", String.toList "with", String.toList "and",
   String.toList "to", String.toList "i", String.toList "want"]

/-- The trailing `\b` of the stop-word pattern: every alternative ends with a
word character, so the boundary holds exactly when the remaining text is
empty or starts with a non-word character. -/
def wordBoundaryAfter (cs : List Char) : Bool :=
  match cs with
  | [] => true
  | c :: _ => !isWordChar c

/-- Try the whole-word alternatives at one position, in order; an
alternative whose trailing boundary fails yields to the next one.  Returns
the text after the matched word. -/
def matchWordsAt : List (List Char) → List Char → Option (List Char)
  | [], _ => none
  | w :: ws, cs =>
    if w.isPrefixOf cs && wordBoundaryAfter (cs.drop w.length) then
      some (cs.drop w.length)
    else matchWordsAt ws cs

/-- Scan of the stop-word substitution.  `prevIsWord` says whether the
character before the current position is a word character: since every
alternative starts with a word character, the leading `\b` holds exactly
when it is false.  After a match the scan resumes right after the matched
word, whose last character is always a word character.  Each step consumes
at least one character, so fuel equal to the input length makes the
recursion structural; the zero-fuel branch is never reached from
`removeStopWords`. -/
def removeStopWordsAux : ℕ → Bool → List Char → List Char
  | 0, _, _ => []
  | _ + 1, _, [] => []
  | n + 1, prevIsWord, c :: rest =>
    if prevIsWord then c :: removeStopWordsAux n (isWordChar c) rest
    else
      match matchWordsAt stopWords (c :: rest) with
      | some r => ' ' :: removeStopWordsAux n true r
      | none => c :: removeStopWordsAux n (isWordChar c) rest

/-- Python `re.sub(r"\b(under|below|less than|...|want)\b", " ", cleaned)`. -/
def removeStopWords (cs : List Char) : List Char :=
  removeStopWordsAux cs.length false cs

/-- Python `re.sub(r"[^\w\s\-]", " ", cleaned)`: every character that is not
a word character, whitespace, or a hyphen becomes a space. -/
def stripPunct (cs : List Char) : List Char :=
  cs.map fun c => if isWordChar c || isSpaceChar c || c = '-' then c else ' '

/-- Python `re.sub(r"\s+", " ", cleaned)`: each maximal whitespace run
collapses to a single space. -/
def collapseSpaces : List Char → List Char
  | [] => []
  | [c] => if isSpaceChar c then [' '] else [c]
  | c :: d :: cs =>
    if isSpaceChar c then
      if isSpaceChar d then collapseSpaces (d :: cs)
      else ' ' :: collapseSpaces (d :: cs)
    else c :: collapseSpaces (d :: cs)

/-- The cleaning cascade of `parse_user_query` (src/main.py lines 56-60):
from the lower-cased, stripped query, remove `$numeral` substrings, remove
stop words as whole words, strip punctuation except hyphens, collapse
whitespace and trim. -/
def cleanedResidual (query : String) : String :=
  let q := pyStrip (pyLower query.toList)
  let c1 := removeDollarNums q
  let c2 := removeStopWords c1
  let c3 := stripPunct c2
  String.mk (pyStrip (collapseSpaces c3))

/-- Python `re.fullmatch(r"[0-9\s]+", keyword)` viewed as a predicate. -/
def onlyDigitsSpace (cs : List Char) : Bool :=
  !cs.isEmpty && cs.all fun c => c.isDigit || isSpaceChar c

/-- The keyword decision of `parse_user_query` (src/main.py lines 62-65):
`keyword = cleaned if cleaned else None`, then a purely numeric/whitespace
keyword is rejected. -/
def keywordOfResidual (cleaned : List Char) : Option String :=
  let keyword0 : Option String := if cleaned.isEmpty then none else some (String.mk cleaned)
  match keyword0 with
  | some k => if onlyDigitsSpace k.toList then none else some k
  | none => none

/-- `parse_user_query` (src/main.py lines 37-67): extract an optional price
ceiling (the `under/below/less than/</<=` pattern first, the bare `$number`
pattern as fallback) and an optional keyword (the cleaning cascade residual,
rejected when empty or consisting only of digits and whitespace). -/
def parse_user_query (query : String) : Option ℚ × Option String :=
  let q := pyStrip (pyLower query.toList)
  let priceNum := match searchPrice q with
    | some n => some n
    | none => searchDollar q
  let max_price := priceNum.map ratOfNumeral
  let cleaned := (cleanedResidual query).toList
  (max_price, keywordOfResidual cleaned)

/-- The duck-typed `category` field of a product record: either a plain
string or a nested object queried for its `name` field (which may itself be
missing, as `dict.get` returns `None`). -/
inductive Category where
  | str (s : String)
  | obj (name : Option String)
deriving DecidableEq

/-- A product record, with the fields the script reads: `name`,
`price` (JSON number or null/absent, modelled as an exact rational),
`_id`, `category` (string, object, or null/absent), `description`. -/
structure Product where
  name : String
  price : Option ℚ
  id : String
  category : Option Category
  description : String
deriving DecidableEq

/-- Substring test on character lists (Python's `needle in hay`). -/
def isSubseqAt (needle : List Char) : List Char → Bool
  | [] => needle.isEmpty
  | c :: t => needle.isPrefixOf (c :: t) || isSubseqAt needle t

/-- Python's `needle in hay` on strings. -/
def containsSub (hay needle : String) : Bool := isSubseqAt needle.toList hay.toList

/-- `filter_products` (src/main.py lines 25-34).  The price filter keeps
products with a present price numerically at most `max_price`; the keyword
filter keeps products whose lower-cased `name + " " + description` contains
the lower-cased keyword.  `if keyword:` is Python truthiness: `None` and the
empty string both skip the keyword filter. -/
def filter_products (products : List Product) (max_price : Option ℚ)
    (keyword : Option String) : List Product :=
  let results1 := match max_price with
    | some m => products.filter fun p =>
        match p.price with
        | some pr => decide (pr ≤ m)
        | none => false
    | none => products
  match keyword with
  | some k =>
    if k = "" then results1
    else results1.filter fun p =>
      containsSub (pyLowerStr p.name ++ " " ++ pyLowerStr p.description) (pyLowerStr k)
  | none => results1

/-- The JSON values serialized into the prompt. -/
inductive Json where
  | null
  | str (s : String)
  | num (q : ℚ)
  | arr (xs : List Json)
  | obj (fields : List (String × Json))

/-- Hexadecimal digit, lower case, as produced by Python's `json` module. -/
def hexDigit (n : ℕ) : Char :=
  if n < 10 then Char.ofNat ('0'.toNat + n) else Char.ofNat ('a'.toNat + n - 10)

/-- A `\uXXXX` escape. -/
def uEscape (n : ℕ) : List Char :=
  ['\\', 'u', hexDigit (n / 4096 % 16), hexDigit (n / 256 % 16),
   hexDigit (n / 16 % 16), hexDigit (n % 16)]

/-- String-character escaping of `json.dumps` (default `ensure_ascii=True`):
quote and backslash get two-character escapes, the named control characters
their short forms, every other character outside `0x20`-`0x7e` a `\uXXXX`
escape (a surrogate pair beyond the basic multilingual plane). -/
def jsonEscapeChar (c : Char) : List Char :=
  if c = '"' then ['\\', '"']
  else if c = '\\' then ['\\', '\\']
  else if c = '\n' then ['\\', 'n']
  else if c = '\t' then ['\\', 't']
  else if c = '\r' then ['\\', 'r']
  else if c = '\x08' then ['\\', 'b']
  else if c = '\x0c' then ['\\', 'f']
  else if 32 ≤ c.toNat && c.toNat ≤ 126 then [c]
  else if c.toNat < 65536 then uEscape c.toNat
  else uEscape (55296 + (c.toNat - 65536) / 1024) ++ uEscape (56320 + (c.toNat - 65536) % 1024)

/-- Escape a string for a JSON literal. -/
def jsonEscape (s : String) : String :=
  String.mk (s.toList.foldr (fun c acc => jsonEscapeChar c ++ acc) [])

/-- A quoted JSON string literal. -/
def jsonQuote (s : String) : String := "\"" ++ jsonEscape s ++ "\""

/-- Python's rendering of the numbers this model meets: JSON integers (and
the integer-valued prices of the claims) print without a decimal point.
Non-integral rationals fall back to Lean's `num/den` notation; Python's
`repr` of a float is not reproduced, and no claim serializes one. -/
def pyNumStr (q : ℚ) : String :=
  if q.den = 1 then toString q.num else toString q

/-- A run of spaces. -/
def spaces (n : ℕ) : String := String.mk (List.replicate n ' ')

mutual

/-- `json.dumps(v, indent=2)` at nesting level `lvl`: non-empty arrays and
objects open a line, indent each entry by two more spaces, and close at the
current indentation; entries are separated by `",\n"` and keys by `": "`. -/
def serJson (lvl : ℕ) : Json → String
  | Json.null => "null"
  | Json.str s => jsonQuote s
  | Json.num q => pyNumStr q
  | Json.arr xs =>
    (match xs with
     | [] => "[]"
     | _ =>
       "[\n" ++
         String.intercalate ",\n"
           ((serArr (lvl + 1) xs).map fun s => spaces (2 * (lvl + 1)) ++ s) ++
         "\n" ++ spaces (2 * lvl) ++ "]")
  | Json.obj fs =>
    (match fs with
     | [] => "\x7b\x7d"
     | _ =>
       "\x7b\n" ++
         String.intercalate ",\n"
           ((serObj (lvl + 1) fs).map fun s => spaces (2 * (lvl + 1)) ++ s) ++
         "\n" ++ spaces (2 * lvl) ++ "\x7d")

/-- Serialize the elements of an array. -/
def serArr (lvl : ℕ) : List Json → List String
  | [] => []
  | x :: xs => serJson lvl x :: serArr lvl xs

/-- Serialize the key-value entries of an object. -/
def serObj (lvl : ℕ) : List (String × Json) → List String
  | [] => []
  | f :: fs => (jsonQuote f.1 ++ ": " ++ serJson lvl f.2) :: serObj lvl fs

end

/-- Top-level `json.dumps(v, indent=2)`. -/
def jsonDumps (v : Json) : String := serJson 0 v

/-- The `short(p)` projection of `build_prompt_for_model` (src/main.py lines
75-82): the reduced record with keys `name`, `price`, `_id`, `category`
(a nested object flattened to its `name` field), `description`, in
insertion order. -/
def short (p : Product) : Json :=
  Json.obj
    [("name", Json.str p.name),
     ("price", match p.price with
       | some q => Json.num q
       | none => Json.null),
     ("_id", Json.str p.id),
     ("category", match p.category with
       | some (Category.obj (some s)) => Json.str s
       | some (Category.obj none) => Json.null
       | some (Category.str s) => Json.str s
       | none => Json.null),
     ("description", Json.str p.description)]

/-- The fixed system instruction of the prompt (src/main.py lines 84-87). -/
def promptContext : String :=
  "You are a shopping assistant. You MUST answer only using the product list provided. " ++
  "Do NOT invent products or prices. If nothing matches, say: \x27No matching products found.\x27\n\n"

/-- The closing instruction of the prompt (src/main.py line 98). -/
def promptClosing : String :=
  "\n\nAnswer concisely and refer to product names and exact prices from the list above."

/-- `build_prompt_for_model` (src/main.py lines 70-100): expose the filtered
list when non-empty (Python truthiness of `filtered`), else the first 10
catalog items, reduced by `short` and serialized with `json.dumps(...,
indent=2)` between the fixed instruction blocks. -/
def build_prompt_for_model (query : String) (products : List Product)
    (filtered : List Product) : String :=
  let items := match filtered with
    | [] => products.take 10
    | _ => filtered
  let items_short := items.map short
  promptContext ++ "User query:\n" ++ query ++ "\n\nProducts (JSON array):\n" ++
    jsonDumps (Json.arr items_short) ++ promptClosing

/-- Python f-string rendering of `p.get('price')`: `None` prints as
`"None"`, a JSON integer as its decimal digits. -/
def priceDisplay : Option ℚ → String
  | none => "None"
  | some q => pyNumStr q

/-- Python rendering of
`p.get('category', {}).get('name') if isinstance(p.get('category'), dict) else p.get('category')`:
an object category yields its `name` field (or `None`), a plain string
passes through, an absent category is `None`; `None` prints as `"None"`. -/
def categoryDisplay : Option Category → String
  | none => "None"
  | some (Category.str s) => s
  | some (Category.obj (some n)) => n
  | some (Category.obj none) => "None"

/-- One line of the deterministic block (src/main.py lines 110-112):
`- <name> (ID: <id>): $<price> — <category>`. -/
def productLine (p : Product) : String :=
  "- " ++ p.name ++ " (ID: " ++ p.id ++ "): $" ++ priceDisplay p.price ++
    " — " ++ categoryDisplay p.category

/-- The deterministic block of `shopping_agent_query` (src/main.py lines
108-116): one line per filtered product under a `MATCHING PRODUCTS:` header
when the filter is non-empty (Python truthiness of `filtered`), else the
fixed no-match line. -/
def deterministicResult (filtered : List Product) : String :=
  match filtered with
  | [] => "No matching products found (based on exact filter)."
  | _ => "MATCHING PRODUCTS:\n" ++ String.intercalate "\n" (filtered.map productLine)

/-- `shopping_agent_query` (src/main.py lines 103-133).  The summarization
collaborator (the `client.chat.completions.create` call) is a parameter: it
either returns the model text (then stripped) or raises, in which case the
orchestrator catches the exception and turns it into the
`[Model call failed]` marker followed by the error detail. -/
def shopping_agent_query (summarize : String → Except String String)
    (query : String) (products : List Product) : String :=
  let parsed := parse_user_query query
  let filtered := filter_products products parsed.1 parsed.2
  let deterministic_result := deterministicResult filtered
  let prompt := build_prompt_for_model query products filtered
  let model_answer := match summarize prompt with
    | Except.ok text => pyStripStr text
    | Except.error e => "[Model call failed] " ++ e
  deterministic_result ++ "\n\nAI Summary:\n" ++ model_answer

/-- The filtered list `shopping_agent_query` computes for a query. -/
def agentFiltered (query : String) (products : List Product) : List Product :=
  filter_products products (parse_user_query query).1 (parse_user_query query).2

/-- The deterministic block `shopping_agent_query` computes for a query. -/
def agentDeterministic (query : String) (products : List Product) : String :=
  deterministicResult (agentFiltered query products)

/-- The two-product demo catalog of the specification:
`{name:"Red Chair", price:150, _id:"1", description:""}`. -/
def redChair : Product := Product.mk "Red Chair" (some 150) "1" none ""

/-- The second demo product: `{name:"Blue Lamp", price:400, _id:"2", description:""}`. -/
def blueLamp : Product := Product.mk "Blue Lamp" (some 400) "2" none ""

/-- The demo catalog `[redChair, blueLamp]`. -/
def demoCatalog : List Product := [redChair, blueLamp]

/-- A product whose `price` field is null, for exercising the price filter. -/
def noPriceLamp : Product := Product.mk "Lamp" none "9" none ""

/-- A product whose name contains the word `chairs`, for exercising the
keyword filter and the deterministic block. -/
def chairsDeluxe : Product :=
  Product.mk "Chairs Deluxe" (some 10) "7" (some (Category.str "Seating")) "nice"

/-- Unfolding of `String.toList` over the explicit constructor. -/
theorem toList_mk (l : List Char) : (String.mk l).toList = l := rfl

/-- The answer returned by `shopping_agent_query` is the deterministic block
followed by the `AI Summary:` header and the summarizer outcome. -/
theorem shopping_agent_query_split (summarize : String → Except String String)
    (query : String) (products : List Product) :
    shopping_agent_query summarize query products =
      agentDeterministic query products ++ "\n\nAI Summary:\n" ++
        (match summarize (build_prompt_for_model query products (agentFiltered query products)) with
         | Except.ok text => pyStripStr text
         | Except.error e => "[Model call failed] " ++ e) := rfl

/-- Claim C1, counterexample: `parse_user_query "Find chairs under 200"`
does not return `(200.0, "chairs")` — the cleaning cascade removes only
`$`-prefixed numerals, so the bare `200` survives into the keyword. -/
theorem claim_C1_cex :
    parse_user_query "Find chairs under 200" ≠ ((some 200 : Option ℚ), some "chairs") := by
  decide

/-- Claim C1, amended: `parse_user_query "Find chairs under 200"` returns
the pair `(200.0, "chairs 200")` — the price ceiling 200.0 is extracted
and, after the cleaning cascade (which removes `$`-number substrings but
not bare numerals, then stop words, punctuation and extra whitespace), the
residual keyword is `"chairs 200"`. -/
theorem claim_C1 :
    parse_user_query "Find chairs under 200" = ((some 200 : Option ℚ), some "chairs 200") := by
  decide

/-- Claim C2, counterexample: on the demo catalog and the query
`"chairs under 200"`, the deterministic block of `shopping_agent_query`
does not contain the Red Chair product line — it does not even contain the
substring `"Red Chair"`. -/
theorem claim_C2_cex :
    containsSub (agentDeterministic "chairs under 200" demoCatalog) "Red Chair" = false := by
  decide

/-- Claim C2, amended: on the demo catalog, the query `"chairs under 200"`
parses to keyword `"chairs 200"`, which matches no product (nor would
`"chairs"`, which is not a substring of `"red chair"`), so the
deterministic block of `shopping_agent_query` is the literal no-match line
and contains neither product's line. -/
theorem claim_C2 :
    agentDeterministic "chairs under 200" demoCatalog =
      "No matching products found (based on exact filter)." ∧
    containsSub (agentDeterministic "chairs under 200" demoCatalog) "Blue Lamp" = false ∧
    ∀ e, shopping_agent_query (fun _ => Except.error e) "chairs under 200" demoCatalog =
      "No matching products found (based on exact filter)." ++ "\n\nAI Summary:\n" ++
        ("[Model call failed] " ++ e) := by
  refine ⟨by decide, by decide, fun e => rfl⟩

/-- Claim C6: when the summarization collaborator raises (any error detail
`e`), `shopping_agent_query` does not propagate it: the answer is still the
deterministic block, followed by the `AI Summary:` header and a summary
section that is the fixed `[Model call failed]` marker with the error
detail appended. -/
theorem claim_C6 (e query : String) (products : List Product) :
    shopping_agent_query (fun _ => Except.error e) query products =
      agentDeterministic query products ++ "\n\nAI Summary:\n" ++
        ("[Model call failed] " ++ e) := rfl

/-- Claim C9: on the demo catalog (Red Chair at 150, Blue Lamp at 400) the
query `"under 50"` matches nothing, and the deterministic block of
`shopping_agent_query` is the literal no-match line. -/
theorem claim_C9 :
    agentDeterministic "under 50" demoCatalog =
      "No matching products found (based on exact filter)." ∧
    ∀ r, shopping_agent_query (fun _ => Except.ok r) "under 50" demoCatalog =
      "No matching products found (based on exact filter)." ++ "\n\nAI Summary:\n" ++
        pyStripStr r := by
  refine ⟨by decide, fun r => rfl⟩

/-- Claim C3: for every catalog and every (non-null) threshold `T`, every
product returned by `filter_products` with a price filter and no keyword has
a present price that is at most `T`; and a product with a null (or absent)
price is never in the result. -/
theorem claim_C3 (C : List Product) (T : ℚ) (p : Product) :
    (p ∈ filter_products C (some T) none → ∃ pr, p.price = some pr ∧ pr ≤ T) ∧
    (p.price = none → p ∉ filter_products C (some T) none) := by
  constructor
  · intro hp
    cases hpr : p.price with
    | none =>
      exfalso
      simp [filter_products, List.mem_filter, hpr] at hp
    | some pr =>
      refine ⟨pr, rfl, ?_⟩
      simp [filter_products, List.mem_filter, hpr] at hp
      exact hp.2
  · intro hnull hp
    simp [filter_products, List.mem_filter, hnull] at hp

/-- Claim C3 witness: in the demo catalog under threshold 200, the Red
Chair is returned with its price 150 ≤ 200, and a product with a null
price is excluded. -/
theorem claim_C3_witness :
    (∃ pr, redChair.price = some pr ∧ pr ≤ (200 : ℚ)) ∧
    noPriceLamp ∉ filter_products [noPriceLamp] (some 200) none :=
  ⟨(claim_C3 demoCatalog 200 redChair).1 (by decide),
   (claim_C3 [noPriceLamp] 200 noPriceLamp).2 rfl⟩

/-- Claim C4: for every catalog and any optional threshold and keyword,
`filter_products` returns a sublist of the catalog — a subset of its
elements in original relative order, with no reordering, duplication or
insertion. -/
theorem claim_C4 (C : List Product) (T : Option ℚ) (K : Option String) :
    (filter_products C T K).Sublist C := by
  cases T <;> cases K <;> simp only [filter_products]
  · exact List.Sublist.refl C
  · split
    · exact List.Sublist.refl C
    · exact List.filter_sublist C
  · exact List.filter_sublist C
  · split
    · exact List.filter_sublist C
    · exact (List.filter_sublist _).trans (List.filter_sublist C)

/-- Claim C5: the keyword filter is idempotent — filtering an already
keyword-filtered catalog by the same keyword returns it unchanged. -/
theorem claim_C5 (C : List Product) (K : String) :
    filter_products (filter_products C none (some K)) none (some K) =
      filter_products C none (some K) := by
  by_cases hK : K = ""
  · simp [filter_products, hK]
  · simp only [filter_products, if_neg hK]
    rw [List.filter_filter]
    exact List.filter_congr fun a _ => Bool.and_self _

/-- Rejection cases of the keyword decision: an empty residual, or one of
digits and whitespace only, yields no keyword. -/
theorem keywordOfResidual_none (cl : List Char)
    (h : cl.isEmpty = true ∨ onlyDigitsSpace cl = true) :
    keywordOfResidual cl = none := by
  unfold keywordOfResidual
  rcases h with h | h
  · simp [h]
  · by_cases hc : cl.isEmpty
    · simp [hc]
    · simp [hc, toList_mk, h]

/-- Claim C7: whenever the cleaning-cascade residual of a query is empty or
consists only of digits and whitespace, `parse_user_query` returns a null
keyword; in particular `parse_user_query "300"` is `(None, None)`. -/
theorem claim_C7 :
    (∀ q : String,
      (cleanedResidual q = "" ∨ onlyDigitsSpace (cleanedResidual q).toList = true) →
        (parse_user_query q).2 = none) ∧
    parse_user_query "300" = ((none : Option ℚ), (none : Option String)) := by
  constructor
  · intro q h
    simp only [parse_user_query]
    refine keywordOfResidual_none _ ?_
    rcases h with h | h
    · exact Or.inl (by rw [h]; rfl)
    · exact Or.inr h
  · decide

/-- Claim C7 witness: the purely numeric query `"300"` has residual
`"300"`, so its keyword is rejected. -/
theorem claim_C7_witness : (parse_user_query "300").2 = none :=
  claim_C7.1 "300" (Or.inr (by decide))

/-- Claim C8: the prompt builder exposes to the summarizer exactly the
filtered list in full when it is non-empty, and otherwise exactly the first
10 items of the unfiltered catalog, as a JSON-serialized array of reduced
records between the fixed instruction blocks. -/
theorem claim_C8 (q : String) (ps fs : List Product) :
    (fs ≠ [] → build_prompt_for_model q ps fs =
      promptContext ++ "User query:\n" ++ q ++ "\n\nProducts (JSON array):\n" ++
        jsonDumps (Json.arr (fs.map short)) ++ promptClosing) ∧
    (fs = [] → build_prompt_for_model q ps fs =
      promptContext ++ "User query:\n" ++ q ++ "\n\nProducts (JSON array):\n" ++
        jsonDumps (Json.arr ((ps.take 10).map short)) ++ promptClosing) := by
  constructor
  · intro h
    cases fs with
    | nil => exact absurd rfl h
    | cons f rest => rfl
  · intro h
    subst h
    rfl

/-- Claim C8 witness: with an empty catalog and the one-product filtered
list `[redChair]`, the prompt serializes exactly that list. -/
theorem claim_C8_witness :
    build_prompt_for_model "q" [] [redChair] =
      promptContext ++ "User query:\n" ++ "q" ++ "\n\nProducts (JSON array):\n" ++
        jsonDumps (Json.arr ([redChair].map short)) ++ promptClosing :=
  (claim_C8 "q" [] [redChair]).1 (by decide)

/-- Claim C10: whenever the filter yields at least one product, the
deterministic block of `shopping_agent_query` is the header line
`MATCHING PRODUCTS:` followed by the per-product lines
`- <name> (ID: <id>): $<price> — <category>`. -/
theorem claim_C10 (q : String) (ps : List Product) (h : agentFiltered q ps ≠ []) :
    agentDeterministic q ps =
      "MATCHING PRODUCTS:\n" ++
        String.intercalate "\n" ((agentFiltered q ps).map productLine) := by
  unfold agentDeterministic deterministicResult
  cases hf : agentFiltered q ps with
  | nil => exact absurd hf h
  | cons a l => rfl

/-- Claim C10 witness: the query `"chairs"` over the one-product catalog
`[chairsDeluxe]` yields a non-empty filter, and the deterministic block is
the header followed by that product's line. -/
theorem claim_C10_witness :
    agentDeterministic "chairs" [chairsDeluxe] =
      "MATCHING PRODUCTS:\n" ++
        String.intercalate "\n" ((agentFiltered "chairs" [chairsDeluxe]).map productLine) :=
  claim_C10 "chairs" [chairsDeluxe] (by decide)

end ShoppingAgent



